import Mathlib

/-!
Shallow embedding of `psutil/arch/bsd/process_info_openbsd.c` (OpenBSD
process-information helpers) and verification of its specified properties.

Kernel interactions (`kvm_openfiles`, `kvm_getprocs`, `sysctl`, `kill`),
the allocator (`malloc` / `realloc`) and `free` are modelled by explicit
oracle parameters, so each C function becomes a pure Lean function from
its oracle and arguments to a result record.  The result record tracks,
besides the returned value, the observable side effects the claims talk
about: whether the kvm handle was closed, whether a buffer was allocated
or freed, and the final values of the out-parameters.

`err(1, NULL)` terminates the whole process; it is modelled as a `fatal`
outcome (any `return` statement textually after it is dead code and is
not modelled as a return).
-/

/-- errno value for a permission-denied condition. -/
def EPERM : Nat := 1

/-- errno value for "no such process". -/
def ESRCH : Nat := 3

/-- errno value reported by sysctl when the supplied buffer is too small. -/
def ENOMEM : Nat := 12

/-! ## psutil_get_proc_list -/

/-- One `struct kinfo_proc` record.  Only the process identifier is
interpreted; everything else is opaque to this code and omitted. -/
structure KinfoProc where
  pid : Int
  deriving Repr, DecidableEq

/-- Oracle describing the kernel and allocator behaviour during one
invocation of `psutil_get_proc_list`. -/
structure ProcListKernel where
  /-- Whether `kvm_openfiles` returns a non-NULL handle. -/
  kvmOpenOk : Bool
  /-- errno after a failed `kvm_openfiles`. -/
  openErrno : Nat
  /-- Result of `kvm_getprocs`: `none` models a NULL return,
  `some procs` a snapshot of `cnt = procs.length` records. -/
  getprocsResult : Option (List KinfoProc)
  /-- Whether `malloc n` succeeds. -/
  mallocOk : Nat → Bool

/-- How one invocation of `psutil_get_proc_list` ends. -/
inductive ProcListOutcome where
  /-- The function executes a `return code` statement. -/
  | ret (code : Nat)
  /-- Outcome when `err(1, NULL)` was reached: the whole process terminates;
  the function never returns to its caller. -/
  | fatal
  deriving Repr, DecidableEq

/-- Everything observable about one invocation of `psutil_get_proc_list`:
the outcome, the final values of the out-parameters `*procList` and
`*procCount` (`none` = never written), and the kvm handle bookkeeping. -/
structure ProcListResult where
  outcome : ProcListOutcome
  procListOut : Option (List KinfoProc)
  procCountOut : Option Nat
  /-- Whether `kvm_openfiles` returned a valid handle during this call. -/
  kvmOpened : Bool
  /-- Whether `kvm_close` was called on that handle before the call ended. -/
  kvmClosed : Bool
  deriving Repr, DecidableEq

/-- Shallow embedding of `psutil_get_proc_list` (process_info_openbsd.c).
`szKinfo` stands for the compile-time constant
`sizeof(struct kinfo_proc)`.  Control flow, in source order:
`kvm_openfiles` NULL → `return errno`; `kvm_getprocs` NULL →
`err(1, NULL)` (fatal, no `kvm_close`); `*procCount = cnt`;
`malloc(cnt * sizeof(struct kinfo_proc))` NULL → `err(1, NULL)`
(fatal, no `kvm_close`); `memcpy`; `kvm_close(kd)`; `return 0`. -/
def psutil_get_proc_list (szKinfo : Nat) (k : ProcListKernel) : ProcListResult :=
  if k.kvmOpenOk = false then
    { outcome := .ret k.openErrno, procListOut := none, procCountOut := none
      kvmOpened := false, kvmClosed := false }
  else
    match k.getprocsResult with
    | none =>
        { outcome := .fatal, procListOut := none, procCountOut := none
          kvmOpened := true, kvmClosed := false }
    | some procs =>
        let cnt := procs.length
        let mlen := cnt * szKinfo
        if k.mallocOk mlen = false then
          { outcome := .fatal, procListOut := none, procCountOut := some cnt
            kvmOpened := true, kvmClosed := false }
        else
          { outcome := .ret 0, procListOut := some procs, procCountOut := some cnt
            kvmOpened := true, kvmClosed := true }

/-! ## psutil_get_cmd_path -/

/-- Oracle for one invocation of `psutil_get_cmd_path`. -/
structure CmdPathKernel where
  /-- First sysctl call (NULL destination, sizing probe): `none` models a
  -1 return, `some s` success with `size = s`. -/
  sizingResult : Option Nat
  /-- Whether `malloc n` succeeds. -/
  mallocOk : Nat → Bool
  /-- Second sysctl call (real query into the buffer) succeeds. -/
  fetchOk : Bool

/-- Everything observable about one invocation of `psutil_get_cmd_path`
or `psutil_get_cmd_args`: whether the returned pointer is NULL, the
final value of the size out-parameter (`none` = never written), and the
allocation bookkeeping. -/
structure CmdBufResult where
  /-- The function returned NULL. -/
  retNull : Bool
  /-- Final value of the out-parameter (`*pathsize` resp. `*argsize`);
  `none` means the function never wrote it. -/
  sizeOut : Option Nat
  /-- Whether `malloc` was called during this invocation. -/
  mallocCalled : Bool
  /-- A buffer was successfully allocated during this invocation. -/
  allocated : Bool
  /-- Whether `free` was called on that buffer before the function returned. -/
  freed : Bool
  deriving Repr, DecidableEq

/-- Shallow embedding of `psutil_get_cmd_path`.  Control flow, in source
order: sizing sysctl fails → `return NULL` (before any allocation);
`malloc(size)` NULL → `PyErr_NoMemory(); return NULL`;
`*pathsize = size`; real sysctl fails → `free(path); return NULL`;
otherwise `return path`. -/
def psutil_get_cmd_path (k : CmdPathKernel) : CmdBufResult :=
  match k.sizingResult with
  | none =>
      { retNull := true, sizeOut := none
        mallocCalled := false, allocated := false, freed := false }
  | some size =>
      if k.mallocOk size = false then
        { retNull := true, sizeOut := none
          mallocCalled := true, allocated := false, freed := false }
      else if k.fetchOk = false then
        { retNull := true, sizeOut := some size
          mallocCalled := true, allocated := true, freed := true }
      else
        { retNull := false, sizeOut := some size
          mallocCalled := true, allocated := true, freed := false }

/-! ## psutil_get_cmd_args -/

/-- Oracle for one invocation of `psutil_get_cmd_args`. -/
structure CmdArgsKernel where
  /-- sysctl KERN_ARGMAX query: `none` models a -1 return, `some m`
  success with `argmax = m`. -/
  argmaxResult : Option Nat
  /-- Whether `malloc n` succeeds. -/
  mallocOk : Nat → Bool
  /-- Real sysctl query into the buffer: `none` models a -1 return,
  `some s` success having written back `size = s`. -/
  fetchResult : Option Nat

/-- Shallow embedding of `psutil_get_cmd_args`.  Control flow, in source
order: KERN_ARGMAX sysctl fails → `return NULL` (before any
allocation); `malloc(argmax)` NULL → `PyErr_NoMemory(); return NULL`;
real sysctl fails → `free(procargs); return NULL`; otherwise
`*argsize = size; return procargs`. -/
def psutil_get_cmd_args (k : CmdArgsKernel) : CmdBufResult :=
  match k.argmaxResult with
  | none =>
      { retNull := true, sizeOut := none
        mallocCalled := false, allocated := false, freed := false }
  | some argmax =>
      if k.mallocOk argmax = false then
        { retNull := true, sizeOut := none
          mallocCalled := true, allocated := false, freed := false }
      else
        match k.fetchResult with
        | none =>
            { retNull := true, sizeOut := none
              mallocCalled := true, allocated := true, freed := true }
        | some size =>
            { retNull := false, sizeOut := some size
              mallocCalled := true, allocated := true, freed := false }

/-! ## get_argv -/

/-- Result of one `sysctl(argv_mib, 4, argv, &argv_size, NULL, 0)` call
inside the growth loop of `get_argv`, as a function of the current
buffer capacity.  `sysctl` is modelled as leaving the requested size
unchanged when it fails, so the loop increment `argv_size *= 2` doubles
the capacity that was just tried. -/
inductive KRes where
  /-- sysctl returned 0. -/
  | ok
  /-- sysctl returned -1 with errno ESRCH (identifier gone). -/
  | esrch
  /-- sysctl returned -1 with errno ENOMEM (buffer too small). -/
  | tooSmall
  /-- sysctl returned -1 with any other errno. -/
  | other
  deriving Repr, DecidableEq

/-- How one invocation of `get_argv` ends. -/
inductive ArgvOutcome where
  /-- The loop broke out on sysctl success.  The source has no
  `return argv;` after the loop (the statement and the closing brace of
  the function are missing), so control falls off the end of the
  non-void function: no defined value is returned. -/
  | fellOffEnd
  /-- errno was ESRCH: `PyErr_SetFromErrno(PyExc_OSError)` was called
  and the function executed `return NULL`. -/
  | retNull
  /-- Outcome when `err(1, NULL)` was reached (realloc failure, or any errno other
  than ESRCH and ENOMEM): the whole process terminates. -/
  | fatal
  deriving Repr, DecidableEq

/-- The growth loop `for (;; argv_size *= 2)` of `get_argv`, with
explicit fuel.  `reallocOk c` models whether `realloc(argv, c)`
succeeds, `kern c` the sysctl result at capacity `c`, `cap` the current
`argv_size`, and `acc` the (reversed) list of capacities already tried.
The returned trace lists every capacity for which a sysctl call was
issued; `none` means the fuel ran out with the loop still running. -/
def get_argvLoop (reallocOk : Nat → Bool) (kern : Nat → KRes) :
    Nat → Nat → List Nat → Option (List Nat × ArgvOutcome)
  | _cap, 0, _acc => none
  | cap, fuel + 1, acc =>
      if reallocOk cap = false then
        some (acc.reverse, .fatal)
      else
        match kern cap with
        | .ok => some ((cap :: acc).reverse, .fellOffEnd)
        | .esrch => some ((cap :: acc).reverse, .retNull)
        | .other => some ((cap :: acc).reverse, .fatal)
        | .tooSmall => get_argvLoop reallocOk kern (cap * 2) fuel (cap :: acc)

/-- Shallow embedding of `get_argv`: the loop starts at
`argv_size = 128`. -/
def get_argv (reallocOk : Nat → Bool) (kern : Nat → KRes) (fuel : Nat) :
    Option (List Nat × ArgvOutcome) :=
  get_argvLoop reallocOk kern 128 fuel []

/-! ## psutil_get_arg_list -/

/-- Result of one invocation of `psutil_get_arg_list`: the returned
Python object (`none` = NULL, `some xs` = a list object holding `xs`)
and whether `get_argv` — hence any kernel call — was invoked. -/
structure ArgListResult where
  retval : Option (List String)
  calledGetArgv : Bool
  deriving Repr, DecidableEq

/-- Shallow embedding of `psutil_get_arg_list`.  `Py_BuildValue("[]")`
creates the empty list `retlist`; `pid < 0` returns it immediately,
before `get_argv` is called.  Otherwise `get_argv` is invoked; since
that function falls off its end on success, the value observed by this
caller is undefined and is supplied here as the oracle parameter
`argvRes` (`none` models NULL). -/
def psutil_get_arg_list (argvRes : Option (List String)) (pid : Int) :
    ArgListResult :=
  if pid < 0 then
    { retval := some [], calledGetArgv := false }
  else
    match argvRes with
    | none => { retval := none, calledGetArgv := true }
    | some args => { retval := some args, calledGetArgv := true }

/-! ## psutil_pid_exists -/

/-- Shallow embedding of `psutil_pid_exists`.  `kill pid` models
`kill(pid, 0)`: `none` is success (return 0), `some e` is failure with
`errno = e`.  The source checks `(0 == kill_ret) || (EPERM == errno)`;
errno is only (re)set by the failing kill, and on success the first
disjunct short-circuits, so the embedding below is exact. -/
def psutil_pid_exists (kill : Int → Option Nat) (pid : Int) : Nat :=
  if pid < 0 then 0
  else
    match kill pid with
    | none => 1
    | some e => if e = EPERM then 1 else 0

/-! ## Concrete oracles used in counterexamples and witnesses -/

/-- Concrete process-table oracle: the handle opens and `kvm_getprocs`
returns NULL (the kernel query yields no result). -/
def procListNoResultKernel : ProcListKernel :=
  { kvmOpenOk := true, openErrno := 0, getprocsResult := none
    mallocOk := fun _ => true }

/-- Concrete process-table oracle: the handle opens, one process is
reported, and `malloc` fails. -/
def procListAllocFailKernel : ProcListKernel :=
  { kvmOpenOk := true, openErrno := 0, getprocsResult := some [{ pid := 1 }]
    mallocOk := fun _ => false }

/-- Concrete process-table oracle: a fully successful call reporting
one process. -/
def procListOkKernel : ProcListKernel :=
  { kvmOpenOk := true, openErrno := 0, getprocsResult := some [{ pid := 1 }]
    mallocOk := fun _ => true }

/-- Concrete process-table oracle: a successful call reporting zero
processes. -/
def procListEmptyKernel : ProcListKernel :=
  { kvmOpenOk := true, openErrno := 0, getprocsResult := some []
    mallocOk := fun _ => true }

/-- Concrete cmd-path oracle: sizing succeeds with 64 bytes, malloc
succeeds, and the real query fails. -/
def cmdPathFetchFailKernel : CmdPathKernel :=
  { sizingResult := some 64, mallocOk := fun _ => true, fetchOk := false }

/-- Concrete cmd-path oracle: the sizing query itself fails. -/
def cmdPathNoSizingKernel : CmdPathKernel :=
  { sizingResult := none, mallocOk := fun _ => true, fetchOk := true }

/-- Concrete cmd-args oracle: the KERN_ARGMAX query succeeds with 4096,
malloc succeeds, and the real query fails. -/
def cmdArgsFetchFailKernel : CmdArgsKernel :=
  { argmaxResult := some 4096, mallocOk := fun _ => true, fetchResult := none }

/-- Concrete growth-loop sysctl oracle: reports "buffer too small"
below capacity 1000 and succeeds from there on. -/
def doublingDemoKern : Nat → KRes :=
  fun c => if c < 1000 then KRes.tooSmall else KRes.ok

/-- Concrete liveness-probe oracle: every probe fails with EPERM. -/
def killEperm : Int → Option Nat := fun _ => some EPERM

/-! ## Helper lemmas about the growth loop -/

/-- The doubling sequence of capacities starting at `cap`:
`[cap, cap*2, cap*4, …]` of length `n`. -/
def geomTrace : Nat → Nat → List Nat
  | _, 0 => []
  | cap, n + 1 => cap :: geomTrace (cap * 2) n

theorem geomTrace_length : ∀ (n cap : Nat), (geomTrace cap n).length = n := by
  intro n
  induction n with
  | zero => intro cap; rfl
  | succ n ih => intro cap; simp [geomTrace, ih]

theorem geomTrace_get : ∀ (n cap i : Nat) (h : i < (geomTrace cap n).length),
    (geomTrace cap n).get ⟨i, h⟩ = cap * 2 ^ i := by
  intro n
  induction n with
  | zero => intro cap i h; simp [geomTrace] at h
  | succ n ih =>
    intro cap i h
    cases i with
    | zero => simp [geomTrace]
    | succ j =>
      have hj : j < (geomTrace (cap * 2) n).length := by
        simp only [geomTrace, List.length_cons] at h
        omega
      have := ih (cap * 2) j hj
      simp only [geomTrace, List.get_cons_succ]
      rw [this, show cap * 2 * 2 ^ j = cap * 2 ^ (j + 1) by ring]

/-- Shape of any terminating run of the growth loop: starting at
capacity `cap` with history `acc`, the capacities attempted are exactly
the doubling sequence from `cap`, and every attempted capacity that was
followed by a further attempt received the "buffer too small" result. -/
theorem get_argvLoop_shape (re : Nat → Bool) (kern : Nat → KRes) :
    ∀ fuel cap acc tr out,
      get_argvLoop re kern cap fuel acc = some (tr, out) →
      ∃ n, n ≤ fuel ∧ tr = acc.reverse ++ geomTrace cap n ∧
        ∀ i, i + 1 < n → kern (cap * 2 ^ i) = KRes.tooSmall := by
  intro fuel
  induction fuel with
  | zero =>
    intro cap acc tr out h
    simp [get_argvLoop] at h
  | succ fuel ih =>
    intro cap acc tr out h
    simp only [get_argvLoop] at h
    by_cases hre : re cap = false
    · rw [if_pos hre] at h
      simp only [Option.some.injEq, Prod.mk.injEq] at h
      obtain ⟨rfl, rfl⟩ := h
      exact ⟨0, by omega, by simp [geomTrace], fun i hi => absurd hi (by omega)⟩
    · rw [if_neg hre] at h
      cases hkc : kern cap with
      | ok =>
        rw [hkc] at h
        simp only [Option.some.injEq, Prod.mk.injEq] at h
        obtain ⟨rfl, rfl⟩ := h
        exact ⟨1, by omega, by simp [geomTrace], fun i hi => absurd hi (by omega)⟩
      | esrch =>
        rw [hkc] at h
        simp only [Option.some.injEq, Prod.mk.injEq] at h
        obtain ⟨rfl, rfl⟩ := h
        exact ⟨1, by omega, by simp [geomTrace], fun i hi => absurd hi (by omega)⟩
      | other =>
        rw [hkc] at h
        simp only [Option.some.injEq, Prod.mk.injEq] at h
        obtain ⟨rfl, rfl⟩ := h
        exact ⟨1, by omega, by simp [geomTrace], fun i hi => absurd hi (by omega)⟩
      | tooSmall =>
        rw [hkc] at h
        obtain ⟨n, hn, htr, hts⟩ := ih (cap * 2) (cap :: acc) tr out h
        refine ⟨n + 1, by omega, ?_, ?_⟩
        · subst htr
          simp [geomTrace, List.reverse_cons, List.append_assoc]
        · intro i hi
          cases i with
          | zero => simpa using hkc
          | succ j =>
            have hj := hts j (by omega)
            rw [show cap * 2 ^ (j + 1) = cap * 2 * 2 ^ j by ring]
            exact hj

/-- Termination of the growth loop: if the kernel never reports
"too small" once the capacity reaches `S`, then any run whose fuel
allows the doubling sequence to reach `S` terminates. -/
theorem get_argvLoop_terminates (re : Nat → Bool) (kern : Nat → KRes) (S : Nat)
    (hk : ∀ c, S ≤ c → kern c ≠ KRes.tooSmall) :
    ∀ fuel cap acc, (∃ j, j < fuel ∧ S ≤ cap * 2 ^ j) →
      ∃ tr out, get_argvLoop re kern cap fuel acc = some (tr, out) := by
  intro fuel
  induction fuel with
  | zero =>
    rintro cap acc ⟨j, hj, -⟩
    exact absurd hj (by omega)
  | succ fuel ih =>
    rintro cap acc ⟨j, hj, hS⟩
    simp only [get_argvLoop]
    by_cases hre : re cap = false
    · rw [if_pos hre]
      exact ⟨_, _, rfl⟩
    · rw [if_neg hre]
      cases hkc : kern cap with
      | ok => exact ⟨_, _, rfl⟩
      | esrch => exact ⟨_, _, rfl⟩
      | other => exact ⟨_, _, rfl⟩
      | tooSmall =>
        have hcap : ¬ S ≤ cap := fun hle => hk cap hle hkc
        apply ih (cap * 2) (cap :: acc)
        cases j with
        | zero =>
          simp only [pow_zero, mul_one] at hS
          exact absurd hS hcap
        | succ j =>
          refine ⟨j, by omega, ?_⟩
          rw [show cap * 2 * 2 ^ j = cap * 2 ^ (j + 1) by ring]
          exact hS

/-! ## Claim theorems -/

/-- Claim C1, counterexample: the claim says the kernel handle is
released before `psutil_get_proc_list` returns on every exit path of an
invocation in which the handle opened.  On the path where the kernel
query returns no result and on the allocation-failure path the source
reaches `err(1, NULL)` without any `kvm_close(kd)` call, so the handle
is not released there. -/
theorem psutil_get_proc_list_release_counterexample :
    ((psutil_get_proc_list 1 procListNoResultKernel).kvmOpened = true ∧
      (psutil_get_proc_list 1 procListNoResultKernel).kvmClosed = false) ∧
    ((psutil_get_proc_list 1 procListAllocFailKernel).kvmOpened = true ∧
      (psutil_get_proc_list 1 procListAllocFailKernel).kvmClosed = false) := by
  decide

/-- Claim C1, amended: in an invocation of `psutil_get_proc_list` in
which the kernel handle opens, the handle is released before the
function returns on the success path; on the path where the kernel
query returns no result and on the allocation-failure path the
function terminates the whole process fatally via `err(1, NULL)`
without releasing the handle (and without returning to its caller). -/
theorem psutil_get_proc_list_handle_release (sz : Nat) (k : ProcListKernel)
    (hopen : k.kvmOpenOk = true) :
    ((psutil_get_proc_list sz k).outcome = ProcListOutcome.ret 0 →
      (psutil_get_proc_list sz k).kvmClosed = true) ∧
    (k.getprocsResult = none →
      (psutil_get_proc_list sz k).outcome = ProcListOutcome.fatal ∧
      (psutil_get_proc_list sz k).kvmClosed = false) ∧
    (∀ procs, k.getprocsResult = some procs →
      k.mallocOk (procs.length * sz) = false →
      (psutil_get_proc_list sz k).outcome = ProcListOutcome.fatal ∧
      (psutil_get_proc_list sz k).kvmClosed = false) := by
  rcases hg : k.getprocsResult with _ | procs
  · refine ⟨?_, ?_, ?_⟩
    · intro hret
      simp [psutil_get_proc_list, hopen, hg] at hret
    · intro _
      simp [psutil_get_proc_list, hopen, hg]
    · intro procs hp
      exact absurd hp (by simp)
  · refine ⟨?_, ?_, ?_⟩
    · intro hret
      by_cases hm : k.mallocOk (procs.length * sz) = false
      · simp [psutil_get_proc_list, hopen, hg, hm] at hret
      · simp only [Bool.not_eq_false] at hm
        simp [psutil_get_proc_list, hopen, hg, hm]
    · intro hnone
      exact absurd hnone (by simp)
    · intro procs2 hp hm
      have hpp := Option.some.inj hp
      subst hpp
      simp [psutil_get_proc_list, hopen, hg, hm]

/-- Claim C1 witness: the success path of the amended theorem at a
concrete oracle. -/
theorem psutil_get_proc_list_handle_release_witness :
    (psutil_get_proc_list 1 procListOkKernel).kvmClosed = true :=
  (psutil_get_proc_list_handle_release 1 procListOkKernel rfl).1 (by decide)

/-- Claim C4: when the kernel query reports zero processes, the reader
returns success (0) with a valid descriptor list whose count is 0,
not an error (given that the resulting zero-byte allocation succeeds;
allocation failure is its own, separate exit path). -/
theorem psutil_get_proc_list_zero_count (sz : Nat) (k : ProcListKernel)
    (hopen : k.kvmOpenOk = true) (hzero : k.getprocsResult = some [])
    (halloc : k.mallocOk 0 = true) :
    psutil_get_proc_list sz k =
      { outcome := ProcListOutcome.ret 0, procListOut := some []
        procCountOut := some 0, kvmOpened := true, kvmClosed := true } := by
  simp [psutil_get_proc_list, hopen, hzero, halloc]

/-- Claim C4 witness: the zero-process success at a concrete oracle. -/
theorem psutil_get_proc_list_zero_count_witness :
    psutil_get_proc_list 1 procListEmptyKernel =
      { outcome := ProcListOutcome.ret 0, procListOut := some []
        procCountOut := some 0, kvmOpened := true, kvmClosed := true } :=
  psutil_get_proc_list_zero_count 1 procListEmptyKernel rfl rfl rfl

/-- Claim C5: in both size-then-fetch argument readers, if the second
(real) kernel query fails after the buffer was allocated, the reader
itself frees the buffer and returns NULL, so the caller never receives
ownership on that failure path. -/
theorem cmd_readers_free_buffer_on_fetch_failure
    (kp : CmdPathKernel) (ka : CmdArgsKernel) (s m : Nat)
    (hs : kp.sizingResult = some s) (hm : kp.mallocOk s = true)
    (hf : kp.fetchOk = false)
    (hsa : ka.argmaxResult = some m) (hma : ka.mallocOk m = true)
    (hfa : ka.fetchResult = none) :
    ((psutil_get_cmd_path kp).retNull = true ∧
      (psutil_get_cmd_path kp).allocated = true ∧
      (psutil_get_cmd_path kp).freed = true) ∧
    ((psutil_get_cmd_args ka).retNull = true ∧
      (psutil_get_cmd_args ka).allocated = true ∧
      (psutil_get_cmd_args ka).freed = true) := by
  simp [psutil_get_cmd_path, psutil_get_cmd_args, hs, hm, hf, hsa, hma, hfa]

/-- Claim C5 witness: both readers at concrete oracles whose real query
fails. -/
theorem cmd_readers_free_buffer_witness :
    ((psutil_get_cmd_path cmdPathFetchFailKernel).retNull = true ∧
      (psutil_get_cmd_path cmdPathFetchFailKernel).allocated = true ∧
      (psutil_get_cmd_path cmdPathFetchFailKernel).freed = true) ∧
    ((psutil_get_cmd_args cmdArgsFetchFailKernel).retNull = true ∧
      (psutil_get_cmd_args cmdArgsFetchFailKernel).allocated = true ∧
      (psutil_get_cmd_args cmdArgsFetchFailKernel).freed = true) :=
  cmd_readers_free_buffer_on_fetch_failure cmdPathFetchFailKernel
    cmdArgsFetchFailKernel 64 4096 rfl rfl rfl rfl rfl rfl

/-- Claim C6: if the sizing query of `psutil_get_cmd_path` fails, the
call returns NULL without `malloc` ever being called. -/
theorem cmd_path_sizing_failure_no_alloc (k : CmdPathKernel)
    (h : k.sizingResult = none) :
    (psutil_get_cmd_path k).retNull = true ∧
    (psutil_get_cmd_path k).mallocCalled = false ∧
    (psutil_get_cmd_path k).allocated = false := by
  simp [psutil_get_cmd_path, h]

/-- Claim C6 witness: the sizing-failure path at a concrete oracle. -/
theorem cmd_path_sizing_failure_no_alloc_witness :
    (psutil_get_cmd_path cmdPathNoSizingKernel).retNull = true ∧
    (psutil_get_cmd_path cmdPathNoSizingKernel).mallocCalled = false ∧
    (psutil_get_cmd_path cmdPathNoSizingKernel).allocated = false :=
  cmd_path_sizing_failure_no_alloc cmdPathNoSizingKernel rfl

/-- Claim C9: `psutil_get_cmd_path` writes `*pathsize` with the probed
size before issuing the second (real) kernel query, so on the
second-query failure path the out-parameter has already been modified
(it is not left unwritten) even though the function returns NULL. -/
theorem cmd_path_writes_size_before_failing_fetch (k : CmdPathKernel) (s : Nat)
    (hs : k.sizingResult = some s) (hm : k.mallocOk s = true)
    (hf : k.fetchOk = false) :
    (psutil_get_cmd_path k).retNull = true ∧
    (psutil_get_cmd_path k).sizeOut = some s ∧
    (psutil_get_cmd_path k).sizeOut ≠ none := by
  simp [psutil_get_cmd_path, hs, hm, hf]

/-- Claim C9 witness: the failing-fetch path at a concrete oracle. -/
theorem cmd_path_writes_size_before_failing_fetch_witness :
    (psutil_get_cmd_path cmdPathFetchFailKernel).retNull = true ∧
    (psutil_get_cmd_path cmdPathFetchFailKernel).sizeOut = some 64 ∧
    (psutil_get_cmd_path cmdPathFetchFailKernel).sizeOut ≠ none :=
  cmd_path_writes_size_before_failing_fetch cmdPathFetchFailKernel 64 rfl rfl rfl

/-- Claim C2, code-bug evidence: when the kernel query succeeds,
`get_argv` does not return the buffer.  The source is missing the
`return argv;` statement (and the closing brace of the function) after
the loop, so on the success break control falls off the end of the
non-void function and no defined value is transferred to the caller.
Evaluated at a concrete input whose first query succeeds. -/
theorem get_argv_success_falls_off_end :
    get_argv (fun _ => true) (fun _ => KRes.ok) 1 =
      some ([128], ArgvOutcome.fellOffEnd) := rfl

/-- Claim C3: in `get_argv`, the buffer capacity strictly doubles on
each "buffer too small" retry — the i-th attempted capacity is
`128 * 2 ^ i` — and whenever capacities of at least `S` are no longer
reported too small, the loop terminates within `Nat.clog 2 S + 1`
attempts, a bound logarithmic in the required final size. -/
theorem get_argv_doubles_and_terminates (re : Nat → Bool) (kern : Nat → KRes)
    (S : Nat) (hk : ∀ c, S ≤ c → kern c ≠ KRes.tooSmall) :
    ∃ tr out, get_argv re kern (Nat.clog 2 S + 1) = some (tr, out) ∧
      tr.length ≤ Nat.clog 2 S + 1 ∧
      ∀ i (h : i < tr.length), tr.get ⟨i, h⟩ = 128 * 2 ^ i := by
  have hreach : S ≤ 128 * 2 ^ Nat.clog 2 S := by
    calc S ≤ 2 ^ Nat.clog 2 S := Nat.le_pow_clog (by norm_num) S
      _ ≤ 128 * 2 ^ Nat.clog 2 S :=
        le_mul_of_one_le_left (Nat.zero_le _) (by norm_num)
  obtain ⟨tr, out, heq⟩ :=
    get_argvLoop_terminates re kern S hk (Nat.clog 2 S + 1) 128 []
      ⟨Nat.clog 2 S, by omega, hreach⟩
  obtain ⟨n, hn, htr, -⟩ :=
    get_argvLoop_shape re kern (Nat.clog 2 S + 1) 128 [] tr out heq
  have htr2 : tr = geomTrace 128 n := by simpa using htr
  subst htr2
  refine ⟨_, _, heq, ?_, ?_⟩
  · rw [geomTrace_length]; exact hn
  · intro i h
    exact geomTrace_get n 128 i h

/-- Claim C3 witness: the doubling run at a concrete oracle needing
1000 bytes. -/
theorem get_argv_doubles_and_terminates_witness :
    ∃ tr out,
      get_argv (fun _ => true) doublingDemoKern (Nat.clog 2 1000 + 1) =
        some (tr, out) ∧
      tr.length ≤ Nat.clog 2 1000 + 1 ∧
      ∀ i (h : i < tr.length), tr.get ⟨i, h⟩ = 128 * 2 ^ i :=
  get_argv_doubles_and_terminates (fun _ => true) doublingDemoKern 1000
    (fun c hc => by simp [doublingDemoKern, Nat.not_lt.mpr hc])

/-- Claim C7: in `get_argv`, an ESRCH result from the kernel makes the
function fail immediately (the Python error is set and NULL returned)
with no further attempt, and in any terminating run every attempted
capacity that was followed by a retry had received the
"buffer too small" result — no other condition is ever retried. -/
theorem get_argv_esrch_no_retry (re : Nat → Bool) (kern : Nat → KRes)
    (fuel : Nat) :
    (0 < fuel → re 128 = true → kern 128 = KRes.esrch →
      get_argv re kern fuel = some ([128], ArgvOutcome.retNull)) ∧
    (∀ tr out, get_argv re kern fuel = some (tr, out) →
      ∀ i (h : i + 1 < tr.length),
        kern (tr.get ⟨i, by omega⟩) = KRes.tooSmall) := by
  constructor
  · intro hfuel hre hk
    cases fuel with
    | zero => omega
    | succ fuel =>
      simp [get_argv, get_argvLoop, hre, hk]
  · intro tr out heq i h
    obtain ⟨n, hn, htr, hts⟩ :=
      get_argvLoop_shape re kern fuel 128 [] tr out heq
    have htr2 : tr = geomTrace 128 n := by simpa using htr
    subst htr2
    rw [geomTrace_length] at h
    rw [geomTrace_get]
    exact hts i (by omega)

/-- Claim C7 witness: an immediate ESRCH failure at a concrete
oracle. -/
theorem get_argv_esrch_no_retry_witness :
    get_argv (fun _ => true) (fun _ => KRes.esrch) 1 =
      some ([128], ArgvOutcome.retNull) :=
  (get_argv_esrch_no_retry (fun _ => true) (fun _ => KRes.esrch) 1).1
    (by norm_num) rfl rfl

/-- Claim C8: for every non-negative pid, `psutil_pid_exists` returns 1
exactly when the zero-signal probe succeeds or fails with EPERM, and
returns 0 on any other probe failure. -/
theorem psutil_pid_exists_classifies (kill : Int → Option Nat) (pid : Int)
    (hpid : 0 ≤ pid) :
    (psutil_pid_exists kill pid = 1 ↔
      kill pid = none ∨ kill pid = some EPERM) ∧
    (∀ e, kill pid = some e → e ≠ EPERM →
      psutil_pid_exists kill pid = 0) := by
  have hneg : ¬ pid < 0 := not_lt.mpr hpid
  constructor
  · unfold psutil_pid_exists
    rw [if_neg hneg]
    cases hk : kill pid with
    | none => simp
    | some e =>
      by_cases he : e = EPERM
      · subst he; simp
      · simp [he]
  · intro e hk he
    unfold psutil_pid_exists
    rw [if_neg hneg, hk]
    simp [he]

/-- Claim C8 witness: an EPERM probe failure at pid 0 classified as
existing. -/
theorem psutil_pid_exists_classifies_witness :
    psutil_pid_exists killEperm 0 = 1 :=
  (psutil_pid_exists_classifies killEperm 0 (by norm_num)).1.mpr
    (Or.inr rfl)

/-- Claim C10: for every negative pid, `psutil_get_arg_list` returns
the valid empty argument list (a success), without invoking the
growth-loop reader `get_argv` or any kernel call. -/
theorem psutil_get_arg_list_negative (argvRes : Option (List String))
    (pid : Int) (h : pid < 0) :
    psutil_get_arg_list argvRes pid =
      { retval := some [], calledGetArgv := false } := by
  simp [psutil_get_arg_list, h]

/-- Claim C10 witness: pid -1. -/
theorem psutil_get_arg_list_negative_witness :
    psutil_get_arg_list none (-1) =
      { retval := some [], calledGetArgv := false } :=
  psutil_get_arg_list_negative none (-1) (by norm_num)
